import Mathlib

/-!
# Verification of the real-time audio pipeline of `seeed_respeaker_stt`

Shallow embedding of the core pipeline of the repository:

* `AudioStreamHandler.audio_callback` and `AudioStreamHandler.update_speaking_state`
  (`src/audio/audio_stream_handler.py`),
* `AudioProcessor.resample_audio` and `AudioProcessor.process_partial_result`
  (`src/audio/audio_processor.py`),
* the transfer queue created in `AudioHandler.__init__` (`src/audio_handler.py`),
* the configuration constants of `AudioConfig` (`src/audio/audio_config.py`).

Python floats are modelled by `ℚ` (all quantities compared here are far from the
decision boundaries, so double rounding cannot flip any comparison appearing in a
theorem below), int16 samples by `ℤ`, numpy arrays by `List ℤ`, timestamps
(`time.time()`) by `ℚ` values passed explicitly, and the mutable
`state_data` dict by a `PhraseState` record threaded through each step.
`scipy.signal.resample` (an external FFT resampler) is a parameter `sig` of the
embedded `resample_audio`, returning `none` when the call raises (as it does,
for instance, at requested length 0); theorems that need it assume exactly its
documented contract (a successful call returns the requested number of
samples; at unchanged length the Fourier method succeeds and is the identity
in exact arithmetic).  On `none` the embedded function takes the `except`
fallback of the source and returns the original samples.
-/

/-- Configuration constants, from `AudioConfig` in `src/audio/audio_config.py`.
`FORMAT`/`DEVICE_INDEX` are device plumbing and are not part of the model. -/
structure AudioConfig where
  RATE : ℕ
  VOSK_RATE : ℕ
  CHANNELS : ℕ
  CHUNK : ℕ
  VAD_THRESHOLD : ℚ
  SILENCE_THRESHOLD : ℚ
  MIN_PHRASE_MS : ℕ
  MAX_PHRASE_MS : ℕ
  SILENCE_MS : ℕ
deriving DecidableEq, Repr

/-- The literal values assigned in `src/audio/audio_config.py`. -/
def defaultAudioConfig : AudioConfig :=
  { RATE := 48000
    VOSK_RATE := 16000
    CHANNELS := 2
    CHUNK := 1024
    VAD_THRESHOLD := 3/1000
    SILENCE_THRESHOLD := 2/1000
    MIN_PHRASE_MS := 250
    MAX_PHRASE_MS := 10000
    SILENCE_MS := 300 }

/-- The `state_data` dict mutated by `update_speaking_state`
(`src/audio/audio_stream_handler.py`): keys `is_speaking`, `voice_frames`,
`silence_frames`, `last_phrase_end`, `audio_buffer`. -/
structure PhraseState where
  is_speaking : Bool
  voice_frames : ℕ
  silence_frames : ℕ
  last_phrase_end : ℚ
  audio_buffer : List ℤ
deriving DecidableEq, Repr

/-- Modelled from the spec: the segmenter's initial `PhraseState` — Idle, zero
run counts, empty accumulated buffer, `last_phrase_end` at process start (0).
No code under `src/` constructs the `state_data` dict; `update_speaking_state`
only mutates it, so the initial record follows the spec's data model
("`accumulatedBuffer` is non-empty only while `isSpeaking == true`"). -/
def initialPhraseState : PhraseState :=
  { is_speaking := false
    voice_frames := 0
    silence_frames := 0
    last_phrase_end := 0
    audio_buffer := [] }

/-- `samples_to_ms = lambda x: (x * 1000) / self.config.RATE`
(line 36 of `src/audio/audio_stream_handler.py`). -/
def samples_to_ms (rate : ℕ) (x : ℕ) : ℚ := ((x : ℚ) * 1000) / (rate : ℚ)

/-- Final block of `update_speaking_state` (lines 60-61):
`if state_data['is_speaking']: state_data['audio_buffer'].extend(audio_data)`. -/
def extend_if_speaking (audio_data : List ℤ) (s : PhraseState) : PhraseState :=
  if s.is_speaking then { s with audio_buffer := s.audio_buffer ++ audio_data } else s

/-- `AudioStreamHandler.update_speaking_state`
(`src/audio/audio_stream_handler.py`, lines 31-63).  Returns the updated
`state_data` together with the Python return value (`True` = a phrase-end was
emitted).  The thresholds `0.3` s, `300` ms and `250` ms are the literals
hard-coded in the function body; the function reads no configuration field
other than `RATE` (through `samples_to_ms`). -/
def update_speaking_state (cfg : AudioConfig) (is_voice : Bool) (audio_data : List ℤ)
    (current_time : ℚ) (state_data : PhraseState) : PhraseState × Bool :=
  if is_voice then
    let s1 : PhraseState :=
      { state_data with
          voice_frames := state_data.voice_frames + audio_data.length
          silence_frames := 0 }
    if s1.is_speaking = false ∧ current_time - s1.last_phrase_end > 3/10 then
      (extend_if_speaking audio_data { s1 with is_speaking := true, audio_buffer := [] }, false)
    else
      (extend_if_speaking audio_data s1, false)
  else
    let s1 : PhraseState :=
      { state_data with
          silence_frames := state_data.silence_frames + audio_data.length }
    if s1.is_speaking = true ∧ samples_to_ms cfg.RATE s1.silence_frames > 300 ∧
        samples_to_ms cfg.RATE s1.voice_frames > 250 then
      ({ s1 with is_speaking := false, last_phrase_end := current_time }, true)
    else
      (extend_if_speaking audio_data s1, false)

/-- Replay of the segmenter over a recorded sequence of
`(is_voice, audio_data, timestamp)` tuples, counting the phrase-end emissions
(`True` returns of `update_speaking_state`). -/
def phrase_run (cfg : AudioConfig) :
    PhraseState × ℕ → List (Bool × List ℤ × ℚ) → PhraseState × ℕ
  | acc, [] => acc
  | acc, (v, ad, t) :: rest =>
      let r := update_speaking_state cfg v ad t acc.1
      phrase_run cfg (r.1, acc.2 + if r.2 then 1 else 0) rest

/-- PortAudio stream-continuation flags returned by a PyAudio callback:
`pyaudio.paContinue` keeps the capture stream running, `pyaudio.paComplete`
terminates it. -/
inductive PaFlag where
  | paContinue : PaFlag
  | paComplete : PaFlag
deriving DecidableEq, Repr

/-- Observable outcome of one `audio_callback` invocation: the chunk put on
`self.audio_queue` (if any), the returned stream flag, and whether
`logger.error` ran (the `except` branch). -/
structure CallbackResult where
  queued : Option (List ℤ)
  flag : PaFlag
  error_logged : Bool
deriving DecidableEq, Repr

/-- Stereo downmix `audio_data.reshape(-1, 2).mean(axis=1).astype(np.int16)`
(line 18 of `src/audio/audio_stream_handler.py`): consecutive interleaved pairs
are averaged in float (exact, since halves of int sums are representable) and
the cast to int16 truncates toward zero — `Int.tdiv` — with no wraparound
because the mean of two int16 values stays in range.  Defined on even-length
lists; `audio_callback` takes the exception branch on odd length, where numpy's
`reshape(-1, 2)` raises. -/
def downmix2 : List ℤ → List ℤ
  | a :: b :: rest => Int.tdiv (a + b) 2 :: downmix2 rest
  | _ => []

/-- `np.abs(audio_data).mean() / 32768.0` (line 21 of
`src/audio/audio_stream_handler.py`). -/
def mean_abs_level (xs : List ℤ) : ℚ :=
  ((((xs.map (fun v => |v|)).sum : ℤ) : ℚ) / (xs.length : ℚ)) / 32768

/-- `AudioStreamHandler.audio_callback` (`src/audio/audio_stream_handler.py`,
lines 10-29).  `in_data` is the int16 sample list produced by `np.frombuffer`.
The only statement in the `try` block that can raise is
`reshape(-1, 2)` — legal only when the sample count is a multiple of 2 — so the
`except` branch (log the error, return `paComplete`) is modelled exactly on
odd-length stereo input.  A chunk is enqueued iff its mean absolute level
normalized by 32768 exceeds `VAD_THRESHOLD`. -/
def audio_callback (cfg : AudioConfig) (in_data : List ℤ) : CallbackResult :=
  if cfg.CHANNELS = 2 then
    if in_data.length % 2 = 0 then
      let audio_data := downmix2 in_data
      { queued := if mean_abs_level audio_data > cfg.VAD_THRESHOLD then some audio_data else none
        flag := PaFlag.paContinue
        error_logged := false }
    else
      { queued := none, flag := PaFlag.paComplete, error_logged := true }
  else
    { queued := if mean_abs_level in_data > cfg.VAD_THRESHOLD then some in_data else none
      flag := PaFlag.paContinue
      error_logged := false }

/-- Python `int()` applied to a float: truncation toward zero. -/
def truncToInt (q : ℚ) : ℤ := if 0 ≤ q then ⌊q⌋ else ⌈q⌉

/-- `np.clip(x, -32768, 32767)` on one sample. -/
def clipQ (lo hi q : ℚ) : ℚ := max lo (min q hi)

/-- `AudioProcessor.resample_audio` (`src/audio/audio_processor.py`,
lines 11-31), on one-dimensional input (the `shape` branch does not fire).
`sig` stands for the external `scipy.signal.resample`; it returns `none` when
the call raises — scipy does raise for a requested length of 0, which this
code reaches whenever `resampled_len = int(len(audio_data) *
resampling_factor)` truncates to 0 — and the `except` branch (lines 29-31)
then returns the original, unresampled `audio_data`.  On success, the final
`np.clip` + `astype(np.int16)` clamps each sample to the int16 range and
truncates it toward zero. -/
def resample_audio (sig : List ℚ → ℕ → Option (List ℚ)) (cfg : AudioConfig)
    (audio_data : List ℤ) : List ℤ :=
  let resampling_factor : ℚ := (cfg.VOSK_RATE : ℚ) / (cfg.RATE : ℚ)
  let resampled_len : ℕ := (truncToInt ((audio_data.length : ℚ) * resampling_factor)).toNat
  match sig (audio_data.map (fun v : ℤ => (v : ℚ))) resampled_len with
  | some resampled_data => resampled_data.map (fun q => truncToInt (clipQ (-32768) 32767 q))
  | none => audio_data

/-- Python `str.split()` with no argument: split on whitespace runs, dropping
empty pieces. -/
def split_words (t : String) : List String :=
  (t.split Char.isWhitespace).filter (fun w => w ≠ "")

/-- `AudioProcessor.process_partial_result` (`src/audio/audio_processor.py`,
lines 72-84).  The recognizer is abstracted to the partial text it reports
(`partial.get("partial", "")`); `self._last_partial` (initially `None`) is the
first argument and is returned updated.  The result is the Python return value:
`"(Partial) " + text` or `None`. -/
def process_partial_result (last_partial_text : Option String)
    (reported_text : String) : Option String × Option String :=
  let partial_text := reported_text.trim
  if partial_text ≠ "" ∧ 2 < (split_words partial_text).length ∧
      some partial_text ≠ last_partial_text then
    (some ("(Partial) " ++ partial_text), some partial_text)
  else
    (none, last_partial_text)

/-- The transfer queue `self.audio_queue = queue.Queue()` created in
`AudioHandler.__init__` (`src/audio_handler.py`, line 38): a FIFO of mono
chunks with **no** `maxsize` argument, i.e. unbounded. -/
structure TransferQueue where
  items : List (List ℤ)
deriving DecidableEq, Repr

/-- `queue.Queue.put` on an unbounded queue: appends the chunk and returns;
with no bound there is no full-queue wait and no failure path. -/
def queue_put (q : TransferQueue) (c : List ℤ) : TransferQueue :=
  { items := q.items ++ [c] }

/-- A configuration whose capture rate equals the recognizer rate (the
`SAMPLE_RATE` config key may be set to 16000, the value `VOSK_RATE` is fixed
to); used to exercise `resample_audio` in the equal-rate scenario. -/
def equalRateConfig : AudioConfig := { defaultAudioConfig with RATE := 16000 }

/-- A contiguous voiced run of 11 seconds of audio at the 48 kHz capture rate:
528000 samples, i.e. 11000 ms, above `MAX_PHRASE_MS = 10000`. -/
def longVoicedChunk : List ℤ := List.replicate 528000 0

/-- A voiced chunk of 13000 samples: 270.83 ms at 48 kHz, above the 250 ms
minimum-phrase threshold. -/
def voicedChunk13000 : List ℤ := List.replicate 13000 0

/-- A non-voiced chunk of 14600 samples: 304.16 ms at 48 kHz, above the 300 ms
silence threshold. -/
def silenceChunk14600 : List ℤ := List.replicate 14600 0

/-! ## Step characterization lemmas for `update_speaking_state` -/

theorem step_voice_start (cfg : AudioConfig) (ad : List ℤ) (t : ℚ) (s : PhraseState)
    (hs : s.is_speaking = false) (hgap : t - s.last_phrase_end > 3/10) :
    update_speaking_state cfg true ad t s =
      ({ s with is_speaking := true,
                voice_frames := s.voice_frames + ad.length,
                silence_frames := 0,
                audio_buffer := ad }, false) := by
  simp [update_speaking_state, extend_if_speaking, hs, hgap]

theorem step_voice_no_start (cfg : AudioConfig) (ad : List ℤ) (t : ℚ) (s : PhraseState)
    (hs : s.is_speaking = false) (hgap : ¬ t - s.last_phrase_end > 3/10) :
    update_speaking_state cfg true ad t s =
      ({ s with voice_frames := s.voice_frames + ad.length,
                silence_frames := 0 }, false) := by
  simp [update_speaking_state, extend_if_speaking, hs, hgap]

theorem step_voice_speaking (cfg : AudioConfig) (ad : List ℤ) (t : ℚ) (s : PhraseState)
    (hs : s.is_speaking = true) :
    update_speaking_state cfg true ad t s =
      ({ s with voice_frames := s.voice_frames + ad.length,
                silence_frames := 0,
                audio_buffer := s.audio_buffer ++ ad }, false) := by
  simp [update_speaking_state, extend_if_speaking, hs]

theorem step_silence_emit (cfg : AudioConfig) (ad : List ℤ) (t : ℚ) (s : PhraseState)
    (hs : s.is_speaking = true)
    (hsil : samples_to_ms cfg.RATE (s.silence_frames + ad.length) > 300)
    (hvoice : samples_to_ms cfg.RATE s.voice_frames > 250) :
    update_speaking_state cfg false ad t s =
      ({ s with is_speaking := false,
                silence_frames := s.silence_frames + ad.length,
                last_phrase_end := t }, true) := by
  simp [update_speaking_state, extend_if_speaking, hs, hsil, hvoice]

theorem step_silence_speaking_hold (cfg : AudioConfig) (ad : List ℤ) (t : ℚ) (s : PhraseState)
    (hs : s.is_speaking = true)
    (h : ¬ (samples_to_ms cfg.RATE (s.silence_frames + ad.length) > 300 ∧
            samples_to_ms cfg.RATE s.voice_frames > 250)) :
    update_speaking_state cfg false ad t s =
      ({ s with silence_frames := s.silence_frames + ad.length,
                audio_buffer := s.audio_buffer ++ ad }, false) := by
  rcases Decidable.not_and_iff_or_not.mp h with h1 | h1 <;>
    simp [update_speaking_state, extend_if_speaking, hs, h1]

theorem step_silence_idle (cfg : AudioConfig) (ad : List ℤ) (t : ℚ) (s : PhraseState)
    (hs : s.is_speaking = false) :
    update_speaking_state cfg false ad t s =
      ({ s with silence_frames := s.silence_frames + ad.length }, false) := by
  simp [update_speaking_state, extend_if_speaking, hs]

theorem voiced_step_not_emit (cfg : AudioConfig) (ad : List ℤ) (t : ℚ) (s : PhraseState) :
    (update_speaking_state cfg true ad t s).2 = false := by
  unfold update_speaking_state
  dsimp only
  split
  · split <;> rfl
  · simp_all

/-! ## C1 — short phrase after sufficient silence -/

/-- Claim C1 is false on the code: from a Speaking state with a 100 ms voiced
run (4800 samples at 48 kHz) and 300.02 ms of accumulated silence after the
incoming non-voiced chunk, `update_speaking_state` keeps `is_speaking = true`
instead of transitioning to Idle. -/
theorem C1_counterexample :
    (update_speaking_state defaultAudioConfig false [7] 5
        { is_speaking := true, voice_frames := 4800, silence_frames := 14400,
          last_phrase_end := 0, audio_buffer := [] }).1.is_speaking = true ∧
    samples_to_ms defaultAudioConfig.RATE (14400 + ([7] : List ℤ).length) > 300 ∧
    ¬ samples_to_ms defaultAudioConfig.RATE 4800 > 250 := by
  refine ⟨?_, by norm_num [samples_to_ms, defaultAudioConfig],
      by norm_num [samples_to_ms, defaultAudioConfig]⟩
  have h := step_silence_speaking_hold defaultAudioConfig [7] 5
      { is_speaking := true, voice_frames := 4800, silence_frames := 14400,
        last_phrase_end := 0, audio_buffer := [] } rfl
      (fun hc => by norm_num [samples_to_ms, defaultAudioConfig] at hc)
  rw [h]

/-- Claim C1 (amended): in the Speaking state, when a non-voiced chunk brings
the accumulated silence run above 300 ms while the voiced run is at most
250 ms, `update_speaking_state` emits no phrase event (returns `False`) but
does **not** discard the phrase or transition to Idle: the state stays
Speaking and the chunk is appended to the accumulated buffer. -/
theorem C1_short_phrase_not_discarded (cfg : AudioConfig) (ad : List ℤ) (t : ℚ)
    (s : PhraseState) (hs : s.is_speaking = true)
    (_hsil : samples_to_ms cfg.RATE (s.silence_frames + ad.length) > 300)
    (hvoice : ¬ samples_to_ms cfg.RATE s.voice_frames > 250) :
    update_speaking_state cfg false ad t s =
      ({ s with silence_frames := s.silence_frames + ad.length,
                audio_buffer := s.audio_buffer ++ ad }, false) :=
  step_silence_speaking_hold cfg ad t s hs (fun hc => hvoice hc.2)

/-- Concrete instance of `C1_short_phrase_not_discarded` at the
`C1_counterexample` input. -/
theorem C1_witness :
    update_speaking_state defaultAudioConfig false [7] 5
        { is_speaking := true, voice_frames := 4800, silence_frames := 14400,
          last_phrase_end := 0, audio_buffer := [] } =
      ({ is_speaking := true, voice_frames := 4800, silence_frames := 14401,
         last_phrase_end := 0, audio_buffer := [7] }, false) := by
  have h := C1_short_phrase_not_discarded defaultAudioConfig [7] 5
      { is_speaking := true, voice_frames := 4800, silence_frames := 14400,
        last_phrase_end := 0, audio_buffer := [] } rfl
      (by norm_num [samples_to_ms, defaultAudioConfig])
      (by norm_num [samples_to_ms, defaultAudioConfig])
  rw [h]
  rfl

/-! ## C2 — no maximum-phrase cap -/

/-- Claim C2 is false on the code: a single contiguous voiced run of 528000
samples (11000 ms at 48 kHz, above `MAX_PHRASE_MS = 10000`) with no
intervening silence produces zero phrase-end emissions, not exactly one. -/
theorem C2_counterexample :
    (phrase_run defaultAudioConfig (initialPhraseState, 0)
        [(true, longVoicedChunk, 1)]).2 = 0 ∧
    samples_to_ms defaultAudioConfig.RATE longVoicedChunk.length >
      (defaultAudioConfig.MAX_PHRASE_MS : ℚ) := by
  constructor
  · simp only [phrase_run, voiced_step_not_emit]
    decide
  · rw [show longVoicedChunk.length = 528000 from List.length_replicate 528000 0]
    norm_num [samples_to_ms, defaultAudioConfig]

/-- Claim C2 (amended): `update_speaking_state` implements no maximum-phrase
cap at all: a voiced chunk never triggers a phrase-end emission (the function
returns `False` on every voiced input, whatever the accumulated voiced run);
`MAX_PHRASE_MS` is read by no code. -/
theorem C2_no_max_phrase_cap (cfg : AudioConfig) (ad : List ℤ) (t : ℚ)
    (s : PhraseState) :
    (update_speaking_state cfg true ad t s).2 = false :=
  voiced_step_not_emit cfg ad t s

/-! ## C3 — Idle-to-Speaking transition -/

/-- Claim C3 is false on the `voiceSampleCount` reset: starting a phrase from
Idle with `voice_frames = 7` and a 2-sample voiced chunk leaves
`voice_frames = 9`, not 0, on the transition. -/
theorem C3_counterexample :
    ((update_speaking_state defaultAudioConfig true [1, 2] 1
        { is_speaking := false, voice_frames := 7, silence_frames := 3,
          last_phrase_end := 0, audio_buffer := [9] }).1.is_speaking = true) ∧
    (update_speaking_state defaultAudioConfig true [1, 2] 1
        { is_speaking := false, voice_frames := 7, silence_frames := 3,
          last_phrase_end := 0, audio_buffer := [9] }).1.voice_frames = 9 ∧
    (9 : ℕ) ≠ 0 := by
  have h := step_voice_start defaultAudioConfig [1, 2] 1
      { is_speaking := false, voice_frames := 7, silence_frames := 3,
        last_phrase_end := 0, audio_buffer := [9] } rfl (by norm_num)
  rw [h]
  exact ⟨rfl, rfl, by norm_num⟩

/-- Claim C3 (amended): from Idle (`is_speaking = false`), a voiced chunk
starts a phrase exactly when `current_time - last_phrase_end > 0.3`; on that
transition the accumulated buffer is reset to exactly the incoming chunk and
`silence_frames` is zeroed, but `voice_frames` is **not** reset to 0 — it is
incremented by the chunk length; when the gap guard fails the state remains
Idle (only the run counters change). -/
theorem C3_idle_transition (cfg : AudioConfig) (ad : List ℤ) (t : ℚ)
    (s : PhraseState) (hs : s.is_speaking = false) :
    update_speaking_state cfg true ad t s =
      (if t - s.last_phrase_end > 3/10 then
        { s with is_speaking := true, voice_frames := s.voice_frames + ad.length,
                 silence_frames := 0, audio_buffer := ad }
       else
        { s with voice_frames := s.voice_frames + ad.length, silence_frames := 0 },
       false) := by
  by_cases hgap : t - s.last_phrase_end > 3/10
  · rw [step_voice_start cfg ad t s hs hgap, if_pos hgap]
  · rw [step_voice_no_start cfg ad t s hs hgap, if_neg hgap]

/-- Concrete instance of `C3_idle_transition` with the gap guard satisfied. -/
theorem C3_witness :
    update_speaking_state defaultAudioConfig true [1, 2] 1
        { is_speaking := false, voice_frames := 7, silence_frames := 3,
          last_phrase_end := 0, audio_buffer := [9] } =
      ({ is_speaking := true, voice_frames := 9, silence_frames := 0,
         last_phrase_end := 0, audio_buffer := [1, 2] }, false) := by
  have h := C3_idle_transition defaultAudioConfig [1, 2] 1
      { is_speaking := false, voice_frames := 7, silence_frames := 3,
        last_phrase_end := 0, audio_buffer := [9] } rfl
  rw [h, if_pos (by norm_num)]
  rfl

/-! ## C4 — buffer/speaking invariant -/

/-- Claim C4 is false on the code: starting from the initial state, a
13000-sample voiced chunk (270.8 ms of voice) followed by a 14600-sample
non-voiced chunk (304.2 ms of silence) ends the phrase, reaching a state with
`is_speaking = false` and a **non-empty** accumulated buffer: the buffer is
not cleared on phrase-end. -/
theorem C4_counterexample :
    ((phrase_run defaultAudioConfig (initialPhraseState, 0)
        [(true, voicedChunk13000, 1), (false, silenceChunk14600, 2)]).1.is_speaking
      = false) ∧
    (phrase_run defaultAudioConfig (initialPhraseState, 0)
        [(true, voicedChunk13000, 1), (false, silenceChunk14600, 2)]).1.audio_buffer ≠ [] := by
  have hl13 : voicedChunk13000.length = 13000 := List.length_replicate 13000 0
  have hl14 : silenceChunk14600.length = 14600 := List.length_replicate 14600 0
  have h1 : update_speaking_state defaultAudioConfig true voicedChunk13000 1
      initialPhraseState =
      ({ is_speaking := true, voice_frames := 13000, silence_frames := 0,
         last_phrase_end := 0, audio_buffer := voicedChunk13000 }, false) := by
    rw [step_voice_start defaultAudioConfig voicedChunk13000 1 initialPhraseState rfl
        (by norm_num [initialPhraseState])]
    simp [initialPhraseState, hl13]
  have h2 : update_speaking_state defaultAudioConfig false silenceChunk14600 2
      { is_speaking := true, voice_frames := 13000, silence_frames := 0,
        last_phrase_end := 0, audio_buffer := voicedChunk13000 } =
      ({ is_speaking := false, voice_frames := 13000, silence_frames := 14600,
         last_phrase_end := 2, audio_buffer := voicedChunk13000 }, true) := by
    rw [step_silence_emit defaultAudioConfig silenceChunk14600 2 _ rfl
        (by norm_num [samples_to_ms, defaultAudioConfig, hl14])
        (by norm_num [samples_to_ms, defaultAudioConfig])]
    simp [hl14]
  constructor
  · simp only [phrase_run, h1, h2]
  · simp only [phrase_run, h1, h2]
    intro hnil
    rw [hnil] at hl13
    simp at hl13

/-- Claim C4 (amended): `accumulatedBuffer` is reset to empty exactly on
phrase-start (and then the incoming chunk is appended), but it is **not**
cleared on phrase-end: whenever a step emits a phrase (returns `True`), the
resulting state is Idle yet keeps the accumulated buffer unchanged, so a state
with `is_speaking = false` and a non-empty buffer is reachable from the
initial state and persists until the next phrase-start. -/
theorem C4_buffer_kept_on_emit (cfg : AudioConfig) (v : Bool) (ad : List ℤ) (t : ℚ)
    (s : PhraseState) (h : (update_speaking_state cfg v ad t s).2 = true) :
    (update_speaking_state cfg v ad t s).1.is_speaking = false ∧
    (update_speaking_state cfg v ad t s).1.audio_buffer = s.audio_buffer := by
  cases v with
  | true =>
      rw [voiced_step_not_emit cfg ad t s] at h
      exact absurd h (by simp)
  | false =>
      by_cases hs : s.is_speaking = true
      · by_cases hc : samples_to_ms cfg.RATE (s.silence_frames + ad.length) > 300 ∧
            samples_to_ms cfg.RATE s.voice_frames > 250
        · rw [step_silence_emit cfg ad t s hs hc.1 hc.2]
          exact ⟨rfl, rfl⟩
        · rw [step_silence_speaking_hold cfg ad t s hs hc] at h
          exact absurd h (by simp)
      · have hs2 : s.is_speaking = false := by
          simpa using hs
        rw [step_silence_idle cfg ad t s hs2] at h
        exact absurd h (by simp)

/-- Concrete instance of `C4_buffer_kept_on_emit`: an emitting step leaves the
accumulated buffer `[3]` in place while `is_speaking` becomes false. -/
theorem C4_witness :
    ((update_speaking_state defaultAudioConfig false [5] 2
        { is_speaking := true, voice_frames := 12001, silence_frames := 14400,
          last_phrase_end := 0, audio_buffer := [3] }).1.is_speaking = false) ∧
    (update_speaking_state defaultAudioConfig false [5] 2
        { is_speaking := true, voice_frames := 12001, silence_frames := 14400,
          last_phrase_end := 0, audio_buffer := [3] }).1.audio_buffer = [3] :=
  C4_buffer_kept_on_emit defaultAudioConfig false [5] 2
    { is_speaking := true, voice_frames := 12001, silence_frames := 14400,
      last_phrase_end := 0, audio_buffer := [3] }
    (by rw [step_silence_emit defaultAudioConfig [5] 2 _ rfl
          (by norm_num [samples_to_ms, defaultAudioConfig])
          (by norm_num [samples_to_ms, defaultAudioConfig])])

/-! ## C5 — resampler output length -/

/-- Claim C5 is false on the code: with five input samples,
`resampled_len = int(5 * 16000/48000) = int(1.666) = 1` (a length at which
`scipy.signal.resample` succeeds), so the output has 1 sample, while rounding
to the nearest integer gives `round(5/3) = 2`.  The `sig` argument is any
resampler honouring the `scipy.signal.resample` length contract on success
(here: constant zeros of the requested length). -/
theorem C5_counterexample :
    (resample_audio (fun _ n => some (List.replicate n (0 : ℚ))) defaultAudioConfig
        [0, 0, 0, 0, 0]).length = 1 ∧
    round ((([0, 0, 0, 0, 0] : List ℤ).length : ℚ) * (defaultAudioConfig.VOSK_RATE : ℚ) /
        (defaultAudioConfig.RATE : ℚ)) = 2 ∧ (1 : ℕ) ≠ 2 := by
  refine ⟨?_, ?_, by norm_num⟩
  · simp only [resample_audio, truncToInt, defaultAudioConfig]
    norm_num
  · norm_num [defaultAudioConfig, round_eq]

/-- Claim C5 (amended): for every resampler `sig` honouring the
`scipy.signal.resample` length contract on success, whenever the internal
resampler call succeeds the output length of `resample_audio` is
`⌊len(x) · VOSK_RATE / RATE⌋` — Python `int()` truncation toward zero (equal
to the floor, the factor being non-negative) — not rounding to the nearest
integer; when the call raises (as scipy does at requested length 0, reached
at source lengths 1 and 2 for the default rates), the `except` fallback
returns the original samples unchanged instead. -/
theorem C5_resample_length (sig : List ℚ → ℕ → Option (List ℚ))
    (hlen : ∀ x n r, sig x n = some r → r.length = n) (cfg : AudioConfig)
    (x : List ℤ) (y : List ℚ)
    (hs : sig (x.map (fun v : ℤ => (v : ℚ)))
        ((truncToInt ((x.length : ℚ) *
          ((cfg.VOSK_RATE : ℚ) / (cfg.RATE : ℚ)))).toNat) = some y) :
    (resample_audio sig cfg x).length =
      (⌊(x.length : ℚ) * (cfg.VOSK_RATE : ℚ) / (cfg.RATE : ℚ)⌋).toNat := by
  unfold resample_audio
  dsimp only
  rw [hs]
  dsimp only
  rw [List.length_map, hlen _ _ _ hs]
  have htr : truncToInt ((x.length : ℚ) * ((cfg.VOSK_RATE : ℚ) / (cfg.RATE : ℚ))) =
      ⌊(x.length : ℚ) * (cfg.VOSK_RATE : ℚ) / (cfg.RATE : ℚ)⌋ := by
    rw [truncToInt, if_pos (by positivity), mul_div_assoc]
  rw [htr]

/-- Concrete instance of `C5_resample_length`: five samples resample to
`⌊5/3⌋ = 1` output sample, the resampler call succeeding at length 1. -/
theorem C5_witness :
    (resample_audio (fun _ n => some (List.replicate n (0 : ℚ))) defaultAudioConfig
        [0, 0, 0, 0, 0]).length = 1 := by
  rw [C5_resample_length (fun _ n => some (List.replicate n (0 : ℚ)))
      (fun x n r hr => by
        rw [← Option.some_inj.mp hr]
        exact List.length_replicate n 0)
      defaultAudioConfig [0, 0, 0, 0, 0] _ rfl]
  norm_num [defaultAudioConfig]

/-! ## C6 — resampling at equal rates is the identity -/

/-- Claim C6: when `VOSK_RATE = RATE` (and the rate is a genuine positive
sample rate), `resample_audio` returns its int16 input unchanged, for every
resampler `sig` with the succeed-and-return-the-input-at-unchanged-length
property of Fourier resampling (`scipy.signal.resample` in exact arithmetic):
the factor is 1, the requested length equals the input length, and the final
clip + int16 cast are the identity on in-range samples. -/
theorem C6_resample_identity (sig : List ℚ → ℕ → Option (List ℚ))
    (hsig : ∀ y, sig y y.length = some y) (cfg : AudioConfig)
    (hrate : cfg.VOSK_RATE = cfg.RATE) (hr : 0 < cfg.RATE) (x : List ℤ)
    (hx : ∀ v ∈ x, -32768 ≤ v ∧ v ≤ 32767) :
    resample_audio sig cfg x = x := by
  unfold resample_audio
  dsimp only
  have hfac : (cfg.VOSK_RATE : ℚ) / (cfg.RATE : ℚ) = 1 := by
    rw [hrate]
    exact div_self (by exact_mod_cast hr.ne')
  rw [hfac, mul_one]
  have hlen : (truncToInt ((x.length : ℚ))).toNat = (x.map (fun v : ℤ => (v : ℚ))).length := by
    rw [truncToInt, if_pos (by positivity), List.length_map]
    rw [show ⌊(x.length : ℚ)⌋ = (x.length : ℤ) from Int.floor_natCast x.length]
    exact Int.toNat_natCast x.length
  rw [hlen, hsig (x.map (fun v : ℤ => (v : ℚ)))]
  dsimp only
  rw [List.map_map]
  have hpt : ∀ v ∈ x, (fun q => truncToInt (clipQ (-32768) 32767 q))
      ((fun v : ℤ => (v : ℚ)) v) = v := by
    intro v hv
    obtain ⟨h1, h2⟩ := hx v hv
    have hclip : clipQ (-32768) 32767 (v : ℚ) = (v : ℚ) := by
      rw [clipQ, min_eq_left (by exact_mod_cast h2), max_eq_right (by exact_mod_cast h1)]
    show truncToInt (clipQ (-32768) 32767 (v : ℚ)) = v
    rw [hclip, truncToInt]
    split
    · exact Int.floor_intCast v
    · exact Int.ceil_intCast v
  calc x.map ((fun q => truncToInt (clipQ (-32768) 32767 q)) ∘ (fun v : ℤ => (v : ℚ)))
      = x.map id := List.map_congr_left hpt
    _ = x := List.map_id x

/-- Concrete instance of `C6_resample_identity` at the equal-rate
configuration, with the identity resampler standing in for
`scipy.signal.resample` at unchanged length. -/
theorem C6_witness :
    resample_audio (fun y _ => some y) equalRateConfig [123, -456] = [123, -456] :=
  C6_resample_identity (fun y _ => some y) (fun y => rfl) equalRateConfig rfl
    (by norm_num [equalRateConfig, defaultAudioConfig]) [123, -456] (by decide)

/-! ## C7 — malformed frame handling -/

/-- Claim C7 is false on its continuation part: on a 3-sample stereo frame
(`reshape(-1, 2)` raises) the callback returns `paComplete`, which terminates
the capture stream, not `paContinue`. -/
theorem C7_counterexample :
    (audio_callback defaultAudioConfig [0, 0, 0]).flag = PaFlag.paComplete ∧
    PaFlag.paComplete ≠ PaFlag.paContinue := by
  constructor
  · rfl
  · intro h
    exact PaFlag.noConfusion h

/-- Claim C7 (amended): a stereo frame whose sample count is not a multiple of
the channel count 2 enqueues nothing and logs an error, but the callback
returns `paComplete` — terminating the capture stream — rather than
requesting continuation. -/
theorem C7_malformed_frame (cfg : AudioConfig) (in_data : List ℤ)
    (hch : cfg.CHANNELS = 2) (hodd : in_data.length % 2 = 1) :
    audio_callback cfg in_data =
      { queued := none, flag := PaFlag.paComplete, error_logged := true } := by
  unfold audio_callback
  rw [if_pos hch, if_neg (by omega)]

/-- Concrete instance of `C7_malformed_frame` on a 3-sample frame. -/
theorem C7_witness :
    audio_callback defaultAudioConfig [0, 0, 0] =
      { queued := none, flag := PaFlag.paComplete, error_logged := true } :=
  C7_malformed_frame defaultAudioConfig [0, 0, 0] rfl rfl

/-! ## C8 — transfer queue -/

/-- Claim C8's overflow behavior does not exist in the code: the queue is
created unbounded, so even with 100000 chunks already backed up (sustained
overflow for any finite bound) `put` still appends the chunk — the chunk is
**not** dropped, and the handler holds no dropped-frame counter that could
increase. -/
theorem C8_counterexample :
    (queue_put { items := List.replicate 100000 [] } [5]).items.length = 100001 ∧
    [5] ∈ (queue_put { items := List.replicate 100000 [] } [5]).items := by
  constructor
  · show (List.replicate 100000 ([] : List ℤ) ++ [[5]]).length = 100001
    rw [List.length_append, List.length_replicate]
    rfl
  · show [5] ∈ List.replicate 100000 ([] : List ℤ) ++ [[5]]
    exact List.mem_append_right _ (List.mem_singleton.mpr rfl)

/-- Claim C8 (amended): `queue.Queue()` is created with no `maxsize`, so the
producer-side `put` is a total operation that always appends the chunk and
returns: it never blocks, never drops a chunk, and no dropped-frame counter
exists in `AudioHandler`. -/
theorem C8_put_total_append (q : TransferQueue) (c : List ℤ) :
    (queue_put q c).items.length = q.items.length + 1 ∧ c ∈ (queue_put q c).items := by
  constructor
  · show (q.items ++ [c]).length = q.items.length + 1
    rw [List.length_append]
    rfl
  · exact List.mem_append_right _ (List.mem_singleton.mpr rfl)

/-! ## C9 — partial-result deduplication -/

/-- Claim C9: for every prior deduplication state, if the recognizer reports
the same partial text on two consecutive `process_partial_result` calls, the
second call returns `None` — either the first call emitted and recorded the
text (so the second fails the dedup check), or the first call already failed
the emission conditions, which are unchanged at the second call. -/
theorem C9_partial_dedup (last : Option String) (t : String) :
    (process_partial_result (process_partial_result last t).2 t).1 = none := by
  unfold process_partial_result
  dsimp only
  by_cases h : t.trim ≠ "" ∧ 2 < (split_words t.trim).length ∧ some t.trim ≠ last
  · rw [if_pos h]
    dsimp only
    rw [if_neg (fun hc => hc.2.2 rfl)]
  · rw [if_neg h]
    dsimp only
    rw [if_neg h]

/-! ## C10 — only voiced chunks are enqueued -/

/-- Claim C10: every chunk `audio_callback` ever enqueues on the transfer
queue has mean absolute amplitude, normalized by 32768, strictly greater than
`VAD_THRESHOLD`; frames classified as silence are dropped in the callback and
never reach the queue. -/
theorem C10_enqueued_above_threshold (cfg : AudioConfig) (in_data : List ℤ)
    (c : List ℤ) (h : (audio_callback cfg in_data).queued = some c) :
    mean_abs_level c > cfg.VAD_THRESHOLD := by
  unfold audio_callback at h
  by_cases hch : cfg.CHANNELS = 2
  · rw [if_pos hch] at h
    by_cases hlen : in_data.length % 2 = 0
    · rw [if_pos hlen] at h
      dsimp only at h
      by_cases hlev : mean_abs_level (downmix2 in_data) > cfg.VAD_THRESHOLD
      · rw [if_pos hlev] at h
        rw [← Option.some_inj.mp h]
        exact hlev
      · rw [if_neg hlev] at h
        exact absurd h (by simp)
    · rw [if_neg hlen] at h
      exact absurd h (by simp)
  · rw [if_neg hch] at h
    dsimp only at h
    by_cases hlev : mean_abs_level in_data > cfg.VAD_THRESHOLD
    · rw [if_pos hlev] at h
      rw [← Option.some_inj.mp h]
      exact hlev
    · rw [if_neg hlev] at h
      exact absurd h (by simp)

/-- Concrete instance of `C10_enqueued_above_threshold`: the frame
`[1000, 1000]` downmixes to `[1000]`, whose level `1000/32768 ≈ 0.0305`
exceeds the default threshold `0.003`, and is enqueued. -/
theorem C10_witness :
    mean_abs_level [1000] > defaultAudioConfig.VAD_THRESHOLD :=
  C10_enqueued_above_threshold defaultAudioConfig [1000, 1000] [1000]
    (by unfold audio_callback
        rw [if_pos (show defaultAudioConfig.CHANNELS = 2 from rfl),
          if_pos (show ([1000, 1000] : List ℤ).length % 2 = 0 from rfl)]
        dsimp only
        rw [if_pos (by
          norm_num [mean_abs_level, downmix2, defaultAudioConfig]
          rw [show Int.tdiv 2000 2 = (1000 : ℤ) from rfl]
          norm_num)]
        rfl)
